import Mathlib

/-!
Shallow embedding of the `unmand` Python client library
(`src/unmand/__init__.py`): the `Extraction` and `Task` value objects,
`ExfilAPI.queue` / `ExfilAPI.poll`, and `SwarmAPI.upload_swarm_task` /
`SwarmAPI.update_swarm_task`.

Modelling conventions:
- Python values relevant to the code's `isinstance` checks are embedded as
  the inductive `PyVal`; a `datetime` object is carried together with the
  string its `isoformat()` method produces; a `dict` passed as the `details`
  argument is opaque (the code never looks inside it).
- Python exceptions are an explicit `Except PyError` result; `raise
  Exception(msg)` becomes `.error (.exception msg)`, the `IndexError` from
  indexing an empty string and the `AttributeError` from a missing attribute
  get their own constructors.
- HTTP transport is external input: each network call consumes a scripted
  `HttpResponse` (status code plus decoded JSON object body).  `poll`
  consumes a finite list of scripted responses, one per `requests.get`.
- Wall-clock values (`time.time()`) are opaque: `Extraction.time_queued` is
  a unit and `time_finished` only records whether `save_result` stamped it.
- Sleep durations (floats in the source) are modelled as exact rationals.
-/

/-- Embedded Python values, as far as the library's `isinstance` checks,
equality comparisons and indexing distinguish them.  `vDt s` is a
`datetime.datetime` whose `isoformat()` is `s`; `vDict` is an opaque
dictionary (the code never inspects the `details` dict it validates); list
elements are erased to `Unit` because the library only ever takes a list's
length (`len(response.get('bboxes', []))`) or builds the empty list
(`self.stages = []`), never reading an element. -/
inductive PyVal where
  | vStr : String → PyVal
  | vDt : String → PyVal
  | vNone : PyVal
  | vDict : PyVal
  | vList : List Unit → PyVal
  | vInt : Int → PyVal
  | vBool : Bool → PyVal
deriving DecidableEq, Repr

/-- Python exceptions raised by the library: `Exception(msg)`, the
`IndexError` from `''[0]`, and the `AttributeError` from reading a missing
attribute. -/
inductive PyError where
  | exception : String → PyError
  | indexError : PyError
  | attributeError : String → PyError
deriving DecidableEq, Repr

/-- `isinstance(v, str)`. -/
def PyVal.isStr : PyVal → Bool
  | .vStr _ => true
  | _ => false

/-- `isinstance(v, datetime)`. -/
def PyVal.isDt : PyVal → Bool
  | .vDt _ => true
  | _ => false

/-- `v.isoformat()` for a datetime value (only applied under the
`isinstance(v, datetime)` guard in the source). -/
def PyVal.isoformat : PyVal → PyVal
  | .vDt s => .vStr s
  | v => v

/-- `len(v)` for a list value (only applied to the `bboxes` list in the
source). -/
def PyVal.pyLen : PyVal → Nat
  | .vList l => l.length
  | _ => 0

/-- A decoded JSON object body, as returned by `response.json()`. -/
abbrev JsonBody := List (String × PyVal)

/-- `body.get(k)`: `None` when the key is absent (Python `dict.get`). -/
def jsonGet (body : JsonBody) (k : String) : PyVal :=
  match body.find? (fun p => p.1 == k) with
  | some p => p.2
  | none => .vNone

/-- `body.get(k, d)`: default `d` when the key is absent. -/
def jsonGetD (body : JsonBody) (k : String) (d : PyVal) : PyVal :=
  match body.find? (fun p => p.1 == k) with
  | some p => p.2
  | none => d

/-- One HTTP response as the `requests` layer delivers it to the library:
status code and decoded JSON object body. -/
structure HttpResponse where
  status_code : Nat
  body : JsonBody
deriving DecidableEq, Repr

/-- The payload `ExfilAPI.poll` assembles in its FINISHED branch before
`extraction.save_result(result)`. -/
structure PollData where
  total_time : PyVal
  feature_extraction_time : PyVal
  time_in_queue : PyVal
  data : PyVal
  bboxes : PyVal
deriving DecidableEq, Repr

/-- The `Extraction` value object.  `time_queued`/`time_finished` hold
wall-clock readings in the source (`time.time()`); the clock is opaque
here, so `time_queued` is erased and `time_finished` only records whether
`save_result` has stamped it (`false` models Python `None`). -/
structure Extraction where
  guid : PyVal
  status : PyVal
  time_queued : Unit
  time_finished : Bool
  result : Option PollData
deriving DecidableEq, Repr

/-- `Extraction.__init__(extraction_guid, status)`. -/
def Extraction.init (extraction_guid status : PyVal) : Extraction :=
  { guid := extraction_guid, status := status, time_queued := ()
    time_finished := false, result := none }

/-- `Extraction.update_status(status)`. -/
def Extraction.update_status (e : Extraction) (status : PyVal) : Extraction :=
  { e with status := status }

/-- `Extraction.save_result(result)`: stamps `time_finished` and stores the
result. -/
def Extraction.save_result (e : Extraction) (result : PollData) : Extraction :=
  { e with time_finished := true, result := some result }

/-- The `Task` value object after a successful `__init__`: the nine
instance attributes, in the order `__init__` assigns them (which is the
order of `task.__dict__`).  Named `SwarmTask` because `Task` is taken by
the Lean core library; it embeds the source class `Task`. -/
structure SwarmTask where
  guid : PyVal
  created : PyVal
  updated : PyVal
  status : PyVal
  environment : PyVal
  stages : PyVal
  outcome : PyVal
  data : PyVal
  swarm_version : PyVal
deriving DecidableEq, Repr

/-- `Task.__init__`, continued: status / environment / outcome / data
validation, and the `UAT` → `TEST` normalization. -/
def SwarmTask.initAfterUpdated (task_id created updated status environment response
    details : PyVal) : Except PyError SwarmTask :=
  match status with
  | .vStr st =>
    if st = "FAILURE" ∨ st = "SUCCESS" then
      match environment with
      | .vStr ev =>
        if ev = "TEST" ∨ ev = "UAT" ∨ ev = "PROD" then
          -- if self.environment == 'UAT': self.environment = 'TEST'
          let ev2 := if ev = "UAT" then "TEST" else ev
          match response with
          | .vStr s =>
            -- self.outcome[0] : IndexError on the empty string
            if s.isEmpty then .error .indexError
            else if !s.front.isUpper then
              .error (.exception "First letter of response must be upper case")
            else
              match details with
              | .vDict | .vList _ | .vNone =>
                .ok { guid := task_id, created := created, updated := updated
                      status := .vStr st, environment := .vStr ev2
                      stages := .vList [], outcome := .vStr s, data := details
                      swarm_version := .vStr "N/A" }
              | _ => .error
                  (.exception "Details must be JSON compatible: list or dictionary")
          | _ => .error (.exception "Response must be a string")
        else .error (.exception "Status must be one of TEST, UAT, or PROD")
      | _ => .error (.exception "Status must be a string and one of TEST, UAT, or PROD")
    else .error (.exception "Status must be one of FAILURE or SUCCESS")
  | _ => .error (.exception "Status must be a string and one of FAILURE or SUCCESS")

/-- `Task.__init__`, continued after the `created` checks (the `updated`
checks and conversion). -/
def SwarmTask.initAfterCreated (task_id created finish status environment response
    details : PyVal) : Except PyError SwarmTask :=
  match finish with
  | .vNone =>
    SwarmTask.initAfterUpdated task_id created .vNone status environment response details
  | .vDt s =>
    SwarmTask.initAfterUpdated task_id created (.vStr s) status environment response details
  | _ => .error (.exception "End value must be a datetime object if provided")

/-- `Task.__init__`.  Attribute assignments first, then the validation
block, in source order; each `raise Exception(...)` is an `.error`.  The
source's `isinstance` checks become matches on the `PyVal` constructor;
string membership tests (`x not in [...]`) become equality disjunctions.
Python's `str.isupper` on the one-character slice `outcome[0]` is modelled
by `Char.isUpper` (ASCII); indexing the empty string raises `IndexError`.
The three `custom_column` parameters are accepted and ignored, as in the
source. -/
def SwarmTask.init (task_id start finish status environment response details
    _custom_column1 _custom_column2 _custom_column3 : PyVal) :
    Except PyError SwarmTask :=
  -- self.guid = task_id ... self.swarm_version = 'N/A'
  match task_id with
  | .vStr _ =>
    -- created: must be a datetime if not None, then replaced by isoformat()
    match start with
    | .vNone =>
      SwarmTask.initAfterCreated task_id .vNone finish status environment response details
    | .vDt s =>
      SwarmTask.initAfterCreated task_id (.vStr s) finish status environment response details
    | _ => .error (.exception "Start value must be a datetime object if provided")
  | _ => .error (.exception "Id must be a string")

/-- `task.__dict__` as an ordered association list: the nine instance
attributes in assignment order.  `dict(task.__dict__.items())` in
`upload_swarm_task` / `update_swarm_task` serializes exactly this. -/
def SwarmTask.attrDict (t : SwarmTask) : List (String × PyVal) :=
  [("guid", t.guid), ("created", t.created), ("updated", t.updated),
   ("status", t.status), ("environment", t.environment), ("stages", t.stages),
   ("outcome", t.outcome), ("data", t.data), ("swarm_version", t.swarm_version)]

/-- Python attribute lookup `task.<name>` on a `Task` instance: looks the
name up in the instance dictionary and raises `AttributeError` when it is
absent (the class defines no such fallback). -/
def SwarmTask.getattr (t : SwarmTask) (name : String) : Except PyError PyVal :=
  match (t.attrDict).find? (fun p => p.1 == name) with
  | some p => .ok p.2
  | none => .error (.attributeError name)

/-- `ExfilAPI.queue(file_data, guid)`.  The multipart request body (file
bytes, `source: API` payload, optional model guid) only affects the
outgoing request, not the returned handle; the function is modelled on the
single response the `requests.post` call yields.  HTTP 201 is
`requests.codes.created`. -/
def ExfilAPI.queue (resp : HttpResponse) : Extraction :=
  if resp.status_code = 201 then
    Extraction.init (jsonGet resp.body "extractionGuid") (jsonGet resp.body "status")
  else
    Extraction.init .vNone (.vStr "FAILED")

/-- `estimate_extraction_time(bounding_box_count)`, the helper defined
inside `ExfilAPI.poll`: `0.000014 * count**2 + 0.02255 * count + 1.08`
seconds.  The source computes in Python floats; the formula is embedded
over exact rationals. -/
def estimate_extraction_time (bounding_box_count : ℕ) : ℚ :=
  0.000014 * (bounding_box_count ^ 2 : ℚ) + 0.02255 * (bounding_box_count : ℚ) + 1.08

/-- What a run of `ExfilAPI.poll` hands back: `ret e` models a
`return extraction` statement, `noneRet` models falling out of the `while`
loop (Python then returns `None`), and `outOfResponses` marks that the
scripted response list ran out while the loop was still going (the Python
loop would keep issuing requests; it can genuinely run forever, e.g. when
the server reports STARTED on every poll). -/
inductive PollReturn where
  | ret : Extraction → PollReturn
  | noneRet : PollReturn
  | outOfResponses : PollReturn
deriving DecidableEq, Repr

/-- The observable outcome of a `poll` run: the returned value, the final
state of the (mutated in place) extraction object, the number of
status-check HTTP requests issued, and the total time passed to
`time.sleep`, in seconds. -/
structure PollOutput where
  retval : PollReturn
  state : Extraction
  calls : ℕ
  sleep : ℚ
deriving DecidableEq, Repr

/-- The `while` loop of `ExfilAPI.poll`, one scripted `HttpResponse` per
`requests.get`.  Arguments mirror the loop's live state: responses still
scripted, the extraction object, `try_count`, `max_tries`, `interval`, and
the accumulated request count and sleep time.  Each iteration sleeps
`interval`, issues the status-check request, and dispatches on
`requests.codes.ok` (HTTP 200) and the reported status exactly as the
source does; logging (`suppress_output`) and the `probabilities` /
`positions` query parameters have no observable effect here and are
omitted. -/
def ExfilAPI.pollLoop (responses : List HttpResponse) (extraction : Extraction)
    (try_count max_tries : ℕ) (interval : ℚ) (calls : ℕ) (sleep : ℚ) :
    PollOutput :=
  -- while extraction.status not in ['FAILED', 'FINISHED']:
  if extraction.status = .vStr "FAILED" ∨ extraction.status = .vStr "FINISHED" then
    { retval := .noneRet, state := extraction, calls := calls, sleep := sleep }
  else
    match responses with
    | [] => { retval := .outOfResponses, state := extraction, calls := calls
              sleep := sleep }
    | result :: rest =>
      -- time.sleep(interval); result = requests.get(...)
      let sleep := sleep + interval
      let calls := calls + 1
      if result.status_code = 200 then
        let response := result.body
        let extraction := extraction.update_status (jsonGet response "status")
        if extraction.status = .vStr "QUEUED" then
          let try_count := try_count + 1
          if try_count > max_tries then
            let extraction := extraction.update_status (.vStr "FAILED")
            { retval := .ret extraction, state := extraction, calls := calls
              sleep := sleep }
          else
            ExfilAPI.pollLoop rest extraction try_count max_tries interval calls sleep
        else if extraction.status = .vStr "STARTED" then
          let wait_period :=
            estimate_extraction_time (jsonGetD response "bboxes" (.vList [])).pyLen
          let sleep := sleep + wait_period
          ExfilAPI.pollLoop rest extraction try_count max_tries interval calls sleep
        else if extraction.status = .vStr "FAILED" then
          { retval := .ret extraction, state := extraction, calls := calls
            sleep := sleep }
        else if extraction.status = .vStr "FINISHED" then
          let r : PollData :=
            { total_time := jsonGet response "timeTaken"
              feature_extraction_time := jsonGet response "timeTakenFeatureExtraction"
              time_in_queue := jsonGet response "timeInQueue"
              data := jsonGet response "data"
              bboxes := jsonGet response "bboxes" }
          let extraction := extraction.save_result r
          { retval := .ret extraction, state := extraction, calls := calls
            sleep := sleep }
        else
          ExfilAPI.pollLoop rest extraction try_count max_tries interval calls sleep
      else
        let extraction := extraction.update_status (.vStr "FAILED")
        { retval := .ret extraction, state := extraction, calls := calls
          sleep := sleep }

/-- `ExfilAPI.poll(extraction, max_tries=100, interval=10.0, ...)`:
enters the loop with `try_count = 0` and nothing yet requested or slept. -/
def ExfilAPI.poll (responses : List HttpResponse) (extraction : Extraction)
    (max_tries : ℕ := 100) (interval : ℚ := 10) : PollOutput :=
  ExfilAPI.pollLoop responses extraction 0 max_tries interval 0 0

/-- `SwarmAPI.__init__`: the base URL selected by the `test` flag. -/
def SwarmAPI.url (test : Bool) : String :=
  if test then "https://swarm-uat.unmand.app/" else "https://swarm.unmand.app/"

/-- What a Swarm call returns when it does not raise: `r.json()` on the
success code, or the literal `False`. -/
inductive SwarmResult where
  | json : JsonBody → SwarmResult
  | falseVal : SwarmResult
deriving DecidableEq, Repr

/-- A request the Swarm client sent: HTTP method, full URL, and the JSON
body `dict(task.__dict__.items())`. -/
structure SwarmRequest where
  method : String
  url : String
  payload : List (String × PyVal)
deriving DecidableEq, Repr

/-- `str(v)` as the f-string `f'{self.url}tasks/{task.id}'` would apply it
(only ever reached on string attribute values in this code). -/
def PyVal.pyStr : PyVal → String
  | .vStr s => s
  | _ => ""

/-- `SwarmAPI.upload_swarm_task(task)`: POSTs `task.__dict__` to
`tasks/create`; on HTTP 201 (`requests.codes.created`) returns `r.json()`,
otherwise logs and returns `False`.  Result: the request sent and the
returned value. -/
def SwarmAPI.upload_swarm_task (base_url : String) (task : SwarmTask)
    (resp : HttpResponse) : Except PyError (SwarmRequest × SwarmResult) :=
  let params := task.attrDict
  let req : SwarmRequest :=
    { method := "POST", url := base_url ++ "tasks/create", payload := params }
  if resp.status_code = 201 then .ok (req, .json resp.body)
  else .ok (req, .falseVal)

/-- `SwarmAPI.update_swarm_task(task)`: PUTs `task.__dict__` to
`tasks/{task.id}`; on HTTP 200 (`requests.codes.ok`) returns `r.json()`,
otherwise logs and returns `False`.  Evaluating the f-string reads the
attribute `task.id`, which Python resolves through the instance
dictionary; the lookup is embedded by `SwarmTask.getattr`. -/
def SwarmAPI.update_swarm_task (base_url : String) (task : SwarmTask)
    (resp : HttpResponse) : Except PyError (SwarmRequest × SwarmResult) :=
  let params := task.attrDict
  match task.getattr "id" with
  | .error e => .error e
  | .ok idv =>
    let req : SwarmRequest :=
      { method := "PUT", url := base_url ++ "tasks/" ++ idv.pyStr
        payload := params }
    if resp.status_code = 200 then .ok (req, .json resp.body)
    else .ok (req, .falseVal)

/-! ### Validity predicates for `Task.__init__` arguments -/

/-- The arguments other than `response` pass every check `Task.__init__`
applies to them: string id, timestamps `None` or datetime, status and
environment strings drawn from their enumerations, details a dict, list or
`None`. -/
def ValidNonOutcomeArgs (task_id start finish status environment details : PyVal) :
    Prop :=
  (∃ g, task_id = .vStr g) ∧
  (start = .vNone ∨ ∃ d, start = .vDt d) ∧
  (finish = .vNone ∨ ∃ d, finish = .vDt d) ∧
  (status = .vStr "FAILURE" ∨ status = .vStr "SUCCESS") ∧
  (environment = .vStr "TEST" ∨ environment = .vStr "UAT" ∨
    environment = .vStr "PROD") ∧
  (details = .vDict ∨ (∃ l, details = .vList l) ∨ details = .vNone)

/-- The `response` argument passes the outcome checks: a non-empty string
whose first character is upper case. -/
def ValidOutcome (response : PyVal) : Prop :=
  ∃ s, response = .vStr s ∧ s.isEmpty = false ∧ s.front.isUpper = true

/-- All ten constructor arguments are valid (the three ignored
`custom_column` arguments are unconstrained). -/
def ValidTaskArgs (task_id start finish status environment response details :
    PyVal) : Prop :=
  ValidNonOutcomeArgs task_id start finish status environment details ∧
  ValidOutcome response

/-- The task a successful `Task.__init__` produces from valid arguments:
datetimes replaced by their `isoformat()` strings, `UAT` normalized to
`TEST`, `stages = []`, `swarm_version = 'N/A'`. -/
def mkValidTask (task_id start finish status environment response details :
    PyVal) : SwarmTask :=
  { guid := task_id, created := start.isoformat, updated := finish.isoformat
    status := status
    environment := if environment = .vStr "UAT" then .vStr "TEST" else environment
    stages := .vList [], outcome := response, data := details
    swarm_version := .vStr "N/A" }

/-- An HTTP 200 status-check response whose body reports status QUEUED:
what the server sends on every poll while the extraction sits in the
queue. -/
def queuedOkResponse : HttpResponse :=
  { status_code := 200, body := [("status", .vStr "QUEUED")] }

/-- A concrete successfully constructed task:
`Task('abc', None, None, 'SUCCESS', 'PROD', 'Success', None, None, None,
None)`. -/
def sampleTask : SwarmTask :=
  { guid := .vStr "abc", created := .vNone, updated := .vNone
    status := .vStr "SUCCESS", environment := .vStr "PROD"
    stages := .vList [], outcome := .vStr "Success", data := .vNone
    swarm_version := .vStr "N/A" }

/-! ### Lemmas about `Task.__init__` -/

/-- When every argument except `response` is valid, `Task.__init__` runs
all the way to the outcome checks, and what happens there depends only on
`response`: a non-string raises, the empty string hits the `IndexError`,
a lower-case first letter raises, and otherwise construction succeeds. -/
theorem init_reduce_of_valid (task_id start finish status environment details
    resp c1 c2 c3 : PyVal)
    (h : ValidNonOutcomeArgs task_id start finish status environment details) :
    SwarmTask.init task_id start finish status environment resp details c1 c2 c3 =
      (match resp with
      | .vStr s =>
        if s.isEmpty then .error .indexError
        else if !s.front.isUpper then
          .error (.exception "First letter of response must be upper case")
        else .ok (mkValidTask task_id start finish status environment
          (.vStr s) details)
      | _ => .error (.exception "Response must be a string")) := by
  obtain ⟨⟨g, rfl⟩, hst, hfin, hstat, henv, hdet⟩ := h
  rcases hst with rfl | ⟨d1, rfl⟩ <;>
  rcases hfin with rfl | ⟨d2, rfl⟩ <;>
  rcases hstat with rfl | rfl <;>
  rcases henv with rfl | rfl | rfl <;>
  rcases hdet with rfl | ⟨l, rfl⟩ | rfl <;>
  cases resp <;>
  simp [SwarmTask.init, SwarmTask.initAfterCreated, SwarmTask.initAfterUpdated,
    mkValidTask, PyVal.isoformat]

/-- Inversion for the tail of `Task.__init__`: a successful result forces
every remaining validation to have passed and determines the constructed
task. -/
theorem initAfterUpdated_ok (task_id created updated status environment resp
    details : PyVal) (t : SwarmTask)
    (h : SwarmTask.initAfterUpdated task_id created updated status environment
      resp details = .ok t) :
    (status = .vStr "FAILURE" ∨ status = .vStr "SUCCESS") ∧
    (environment = .vStr "TEST" ∨ environment = .vStr "UAT" ∨
      environment = .vStr "PROD") ∧
    (∃ s, resp = .vStr s ∧ s.isEmpty = false ∧ s.front.isUpper = true) ∧
    (details = .vDict ∨ (∃ l, details = .vList l) ∨ details = .vNone) ∧
    t = { guid := task_id, created := created, updated := updated
          status := status
          environment := if environment = .vStr "UAT" then .vStr "TEST"
            else environment
          stages := .vList [], outcome := resp, data := details
          swarm_version := .vStr "N/A" } := by
  cases status <;> simp only [SwarmTask.initAfterUpdated] at h <;>
    try exact Except.noConfusion h
  rename_i st
  split at h
  case isFalse => exact Except.noConfusion h
  case isTrue hst =>
  split at h <;> try exact Except.noConfusion h
  rename_i ev
  split at h <;> try exact Except.noConfusion h
  rename_i hev
  split at h <;> try exact Except.noConfusion h
  rename_i s
  split at h <;> try exact Except.noConfusion h
  rename_i hse
  split at h <;> try exact Except.noConfusion h
  rename_i hsu
  split at h <;> try exact Except.noConfusion h
  case _ =>
    obtain rfl := (Except.ok.injEq _ _).mp h
    refine ⟨by simpa using hst, by simpa using hev,
      ⟨s, rfl, by simpa using hse, by simpa using hsu⟩, by simp, ?_⟩
    by_cases h2 : ev = "UAT" <;> simp [h2]
  case _ l =>
    obtain rfl := (Except.ok.injEq _ _).mp h
    refine ⟨by simpa using hst, by simpa using hev,
      ⟨s, rfl, by simpa using hse, by simpa using hsu⟩, by simp, ?_⟩
    by_cases h2 : ev = "UAT" <;> simp [h2]
  case _ =>
    obtain rfl := (Except.ok.injEq _ _).mp h
    refine ⟨by simpa using hst, by simpa using hev,
      ⟨s, rfl, by simpa using hse, by simpa using hsu⟩, by simp, ?_⟩
    by_cases h2 : ev = "UAT" <;> simp [h2]

/-- Full inversion for `Task.__init__`: construction succeeds only on
valid arguments, and the constructed task is `mkValidTask`. -/
theorem init_ok_valid (task_id start finish status environment resp details
    c1 c2 c3 : PyVal) (t : SwarmTask)
    (h : SwarmTask.init task_id start finish status environment resp details
      c1 c2 c3 = .ok t) :
    ValidTaskArgs task_id start finish status environment resp details ∧
    t = mkValidTask task_id start finish status environment resp details := by
  cases task_id <;> simp only [SwarmTask.init] at h <;>
    try exact Except.noConfusion h
  rename_i g
  cases start <;> simp only [SwarmTask.initAfterCreated] at h <;>
    try exact Except.noConfusion h
  all_goals cases finish <;> try exact Except.noConfusion h
  all_goals
    obtain ⟨h1, h2, h3, h4, rfl⟩ := initAfterUpdated_ok _ _ _ _ _ _ _ _ h
  all_goals obtain ⟨s, rfl, hse, hsu⟩ := h3
  all_goals
    exact ⟨⟨⟨⟨g, rfl⟩, by simp, by simp, h1, h2, h4⟩, ⟨s, rfl, hse, hsu⟩⟩,
      by simp [mkValidTask, PyVal.isoformat]⟩

/-- Valid arguments make `Task.__init__` succeed with `mkValidTask`. -/
theorem init_ok_of_valid (task_id start finish status environment resp details
    c1 c2 c3 : PyVal)
    (h : ValidTaskArgs task_id start finish status environment resp details) :
    SwarmTask.init task_id start finish status environment resp details c1 c2
      c3 = .ok (mkValidTask task_id start finish status environment resp
        details) := by
  obtain ⟨hno, s, rfl, hse, hsu⟩ := h
  rw [init_reduce_of_valid _ _ _ _ _ _ _ _ _ _ hno]
  simp [hse, hsu]

/-! ### Lemmas about the poll loop -/

/-- One iteration of the poll loop against an HTTP 200 QUEUED response:
the retry counter goes up; past `max_tries` the extraction is failed and
returned, otherwise the loop continues on the remaining responses. -/
theorem pollLoop_step_queued (e : Extraction) (t mt : ℕ) (interval : ℚ)
    (rs : List HttpResponse) (calls : ℕ) (sleep : ℚ)
    (hs : ¬(e.status = .vStr "FAILED" ∨ e.status = .vStr "FINISHED")) :
    ExfilAPI.pollLoop (queuedOkResponse :: rs) e t mt interval calls sleep =
      (if t + 1 > mt then
        { retval := .ret (e.update_status (.vStr "FAILED"))
          state := e.update_status (.vStr "FAILED")
          calls := calls + 1, sleep := sleep + interval }
      else
        ExfilAPI.pollLoop rs (e.update_status (.vStr "QUEUED")) (t + 1) mt
          interval (calls + 1) (sleep + interval)) := by
  conv_lhs => rw [ExfilAPI.pollLoop]
  rw [if_neg hs]
  simp [queuedOkResponse, jsonGet, Extraction.update_status]

/-- A run of `k ≥ 1` HTTP 200 QUEUED responses entered at retry count `t`
with `t + k = max_tries + 1` drives the loop into the
`try_count > max_tries` branch: the extraction comes back FAILED after
exactly `k` further status checks and `k * interval` further sleep. -/
theorem pollLoop_queued_run (k : ℕ) :
    ∀ (e : Extraction) (t mt : ℕ) (interval : ℚ) (rest : List HttpResponse)
      (calls : ℕ) (sleep : ℚ),
    ¬(e.status = .vStr "FAILED" ∨ e.status = .vStr "FINISHED") →
    t + k = mt + 1 → 1 ≤ k →
    ExfilAPI.pollLoop (List.replicate k queuedOkResponse ++ rest) e t mt
        interval calls sleep =
      { retval := .ret (e.update_status (.vStr "FAILED"))
        state := e.update_status (.vStr "FAILED")
        calls := calls + k, sleep := sleep + k * interval } := by
  induction k with
  | zero => intro e t mt interval rest calls sleep hs ht hk; omega
  | succ k ih =>
    intro e t mt interval rest calls sleep hs ht _
    rw [List.replicate_succ, List.cons_append, pollLoop_step_queued _ _ _ _ _ _ _ hs]
    by_cases hgt : t + 1 > mt
    · have hk0 : k = 0 := by omega
      subst hk0
      rw [if_pos hgt]
      simp only [PollOutput.mk.injEq]
      exact ⟨trivial, trivial, trivial, by push_cast; ring⟩
    · rw [if_neg hgt]
      rw [ih (e.update_status (.vStr "QUEUED")) (t + 1) mt interval rest
        (calls + 1) (sleep + interval) (by simp [Extraction.update_status])
        (by omega) (by omega)]
      simp only [PollOutput.mk.injEq]
      exact ⟨rfl, rfl, by omega, by push_cast; ring⟩

/-! ### Claim theorems -/

/-- C1, counterexample: the claim says that with every status check
answering HTTP 200 / QUEUED, `poll` returns a FAILED handle after exactly
`maxTries` QUEUED observations, capping the QUEUED-state wait at
`maxTries * interval`.  With `maxTries = 1` and `interval = 10`: after 1
QUEUED observation the loop is still running (the single scripted response
is consumed without returning), the function actually returns FAILED after
2 status checks, and the total sleep is 20 s, not `1 * 10` s. -/
theorem poll_queued_maxTries_cx :
    (ExfilAPI.poll [queuedOkResponse]
        (Extraction.init (.vStr "g") (.vStr "QUEUED")) 1 10).retval =
      .outOfResponses ∧
    (ExfilAPI.poll (List.replicate 2 queuedOkResponse)
        (Extraction.init (.vStr "g") (.vStr "QUEUED")) 1 10) =
      { retval := .ret (Extraction.init (.vStr "g") (.vStr "FAILED"))
        state := Extraction.init (.vStr "g") (.vStr "FAILED")
        calls := 2, sleep := 20 } ∧
    ¬((ExfilAPI.poll (List.replicate 2 queuedOkResponse)
        (Extraction.init (.vStr "g") (.vStr "QUEUED")) 1 10).calls = 1) ∧
    ¬((ExfilAPI.poll (List.replicate 2 queuedOkResponse)
        (Extraction.init (.vStr "g") (.vStr "QUEUED")) 1 10).sleep = 1 * 10) := by
  have h2 := pollLoop_queued_run 2 (Extraction.init (.vStr "g") (.vStr "QUEUED"))
    0 1 10 [] 0 0 (by decide) (by norm_num) (by norm_num)
  rw [List.append_nil] at h2
  refine ⟨by decide, ?_, by decide, ?_⟩
  · unfold ExfilAPI.poll
    rw [h2]
    simp only [PollOutput.mk.injEq]
    refine ⟨rfl, rfl, by norm_num, by norm_num⟩
  · unfold ExfilAPI.poll
    rw [h2]
    norm_num

/-- C1, amended: for every handle whose status is not yet terminal and
every `maxTries ≥ 1`, if every status check yields HTTP 200 with status
QUEUED, `poll` returns the handle with status forced to FAILED after
exactly `maxTries + 1` QUEUED observations (status-check calls), capping
the total QUEUED-state wait at `(maxTries + 1) * interval` seconds.  The
source increments `try_count` before comparing `try_count > max_tries`,
so the loop gives up on the observation after the `max_tries`-th one. -/
theorem poll_queued_returns_after_maxTries_succ (e : Extraction)
    (max_tries : ℕ) (interval : ℚ) (rest : List HttpResponse)
    (hs : ¬(e.status = .vStr "FAILED" ∨ e.status = .vStr "FINISHED"))
    (hm : 1 ≤ max_tries) :
    ExfilAPI.poll (List.replicate (max_tries + 1) queuedOkResponse ++ rest) e
        max_tries interval =
      { retval := .ret (e.update_status (.vStr "FAILED"))
        state := e.update_status (.vStr "FAILED")
        calls := max_tries + 1
        sleep := ((max_tries : ℚ) + 1) * interval } := by
  unfold ExfilAPI.poll
  rw [pollLoop_queued_run (max_tries + 1) e 0 max_tries interval rest 0 0 hs
    (by omega) (by omega)]
  simp only [PollOutput.mk.injEq]
  refine ⟨trivial, trivial, by omega, by push_cast; ring⟩

/-- C1, witness: the amended theorem applied to a concrete QUEUED handle
with `maxTries = 1`, `interval = 10`. -/
theorem poll_queued_returns_witness :
    ExfilAPI.poll (List.replicate 2 queuedOkResponse ++ [])
        (Extraction.init (.vStr "g") (.vStr "QUEUED")) 1 10 =
      { retval := .ret ((Extraction.init (.vStr "g")
          (.vStr "QUEUED")).update_status (.vStr "FAILED"))
        state := (Extraction.init (.vStr "g")
          (.vStr "QUEUED")).update_status (.vStr "FAILED")
        calls := 1 + 1, sleep := ((1 : ℚ) + 1) * 10 } :=
  poll_queued_returns_after_maxTries_succ _ 1 10 [] (by decide) (by decide)

/-- C9: if `poll` is called on an extraction whose status is already
FAILED or FINISHED, the loop body never executes: no status-check request
is issued, no field of the extraction changes, nothing is slept, and the
function falls off the `while` loop, returning Python `None` rather than
the handle. -/
theorem poll_terminal_noop (responses : List HttpResponse) (e : Extraction)
    (max_tries : ℕ) (interval : ℚ)
    (hs : e.status = .vStr "FAILED" ∨ e.status = .vStr "FINISHED") :
    ExfilAPI.poll responses e max_tries interval =
      { retval := .noneRet, state := e, calls := 0, sleep := 0 } := by
  unfold ExfilAPI.poll
  rw [ExfilAPI.pollLoop.eq_def, if_pos hs]

/-- C9, witness: a FINISHED handle with responses available: none are
consumed. -/
theorem poll_terminal_noop_witness :
    ExfilAPI.poll [queuedOkResponse]
        (Extraction.init (.vStr "g") (.vStr "FINISHED")) 100 10 =
      { retval := .noneRet
        state := Extraction.init (.vStr "g") (.vStr "FINISHED")
        calls := 0, sleep := 0 } :=
  poll_terminal_noop _ _ _ _ (by decide)

/-- C7: on any iteration of the poll loop, a non-OK (status ≠ 200)
status-check response immediately sets the extraction's status to FAILED
and returns the extraction after that one request, with its result still
absent; nothing is raised (the embedding's only poll outcomes are returns). -/
theorem poll_non_ok_fails (resp : HttpResponse) (rest : List HttpResponse)
    (e : Extraction) (try_count max_tries calls : ℕ) (interval sleep : ℚ)
    (hs : ¬(e.status = .vStr "FAILED" ∨ e.status = .vStr "FINISHED"))
    (hc : resp.status_code ≠ 200) (hr : e.result = none) :
    ExfilAPI.pollLoop (resp :: rest) e try_count max_tries interval calls
        sleep =
      { retval := .ret (e.update_status (.vStr "FAILED"))
        state := e.update_status (.vStr "FAILED")
        calls := calls + 1, sleep := sleep + interval } ∧
    (e.update_status (.vStr "FAILED")).result = none := by
  constructor
  · conv_lhs => rw [ExfilAPI.pollLoop]
    rw [if_neg hs]
    simp [hc]
  · simpa [Extraction.update_status] using hr

/-- C7, witness: an HTTP 500 on the first status check of a QUEUED
handle. -/
theorem poll_non_ok_fails_witness :
    ExfilAPI.pollLoop [{ status_code := 500, body := [] }]
        (Extraction.init (.vStr "g") (.vStr "QUEUED")) 0 100 10 0 0 =
      { retval := .ret ((Extraction.init (.vStr "g")
          (.vStr "QUEUED")).update_status (.vStr "FAILED"))
        state := (Extraction.init (.vStr "g")
          (.vStr "QUEUED")).update_status (.vStr "FAILED")
        calls := 0 + 1, sleep := 0 + 10 } ∧
    ((Extraction.init (.vStr "g")
        (.vStr "QUEUED")).update_status (.vStr "FAILED")).result = none :=
  poll_non_ok_fails _ [] _ 0 100 0 10 0 (by decide) (by decide) rfl

/-- C3: whenever the submission response status is not 201, `queue`
returns a handle whose guid is absent (`None`) and whose status is
FAILED; on 201 it returns a handle built from the response body's
`extractionGuid` and `status` fields. -/
theorem queue_status_handling (resp : HttpResponse) :
    (resp.status_code ≠ 201 →
      ExfilAPI.queue resp = Extraction.init .vNone (.vStr "FAILED") ∧
      (ExfilAPI.queue resp).guid = .vNone ∧
      (ExfilAPI.queue resp).status = .vStr "FAILED") ∧
    (resp.status_code = 201 →
      ExfilAPI.queue resp =
        Extraction.init (jsonGet resp.body "extractionGuid")
          (jsonGet resp.body "status")) := by
  constructor
  · intro h
    unfold ExfilAPI.queue
    rw [if_neg h]
    exact ⟨rfl, rfl, rfl⟩
  · intro h
    unfold ExfilAPI.queue
    rw [if_pos h]

/-- C3, witness: a 500 submission response and a 201 submission
response. -/
theorem queue_status_handling_witness :
    (ExfilAPI.queue { status_code := 500, body := [] } =
      Extraction.init .vNone (.vStr "FAILED")) ∧
    (ExfilAPI.queue
        { status_code := 201,
          body := [("extractionGuid", .vStr "e1"), ("status", .vStr "QUEUED")] } =
      Extraction.init
        (jsonGet [("extractionGuid", .vStr "e1"), ("status", .vStr "QUEUED")]
          "extractionGuid")
        (jsonGet [("extractionGuid", .vStr "e1"), ("status", .vStr "QUEUED")]
          "status")) :=
  ⟨((queue_status_handling _).1 (by decide)).1, (queue_status_handling _).2 rfl⟩

/-- C6: the STARTED-state wait formula computes
`0.000014 b² + 0.02255 b + 1.08` seconds for bounding-box count `b`; in
particular it yields `1.08` at `b = 0` and `3.475` at `b = 100` (exact
rational arithmetic standing in for the source's float arithmetic). -/
theorem estimate_extraction_time_values :
    (∀ b : ℕ, estimate_extraction_time b =
      0.000014 * (b : ℚ) ^ 2 + 0.02255 * (b : ℚ) + 1.08) ∧
    estimate_extraction_time 0 = 1.08 ∧
    estimate_extraction_time 100 = 3.475 := by
  refine ⟨fun b => rfl, by norm_num [estimate_extraction_time],
    by norm_num [estimate_extraction_time]⟩

/-- C2, code-bug evaluation: `upload_swarm_task` behaves as claimed
(decoded JSON body on HTTP 201, `False` on any other status, POSTing
`task.__dict__` to `tasks/create`), but `update_swarm_task` never reaches
the transport: formatting its f-string URL reads the attribute `task.id`,
which no `Task` instance has (the identifier attribute is `guid`), so
every call raises `AttributeError` regardless of the response
— shown here for every task and response, and in particular for the
concretely constructed `sampleTask`. -/
theorem update_swarm_task_missing_id_attribute :
    (SwarmTask.init (.vStr "abc") .vNone .vNone (.vStr "SUCCESS") (.vStr "PROD")
        (.vStr "Success") .vNone .vNone .vNone .vNone = .ok sampleTask) ∧
    (∀ (t : SwarmTask) (resp : HttpResponse) (test : Bool),
      SwarmAPI.update_swarm_task (SwarmAPI.url test) t resp =
        .error (.attributeError "id")) ∧
    (∀ body : JsonBody,
      SwarmAPI.upload_swarm_task (SwarmAPI.url false) sampleTask
          { status_code := 201, body := body } =
        .ok ({ method := "POST"
               url := "https://swarm.unmand.app/tasks/create"
               payload := sampleTask.attrDict }, .json body)) ∧
    (SwarmAPI.upload_swarm_task (SwarmAPI.url false) sampleTask
        { status_code := 500, body := [] } =
      .ok ({ method := "POST"
             url := "https://swarm.unmand.app/tasks/create"
             payload := sampleTask.attrDict }, .falseVal)) := by
  refine ⟨rfl, fun t resp test => rfl, fun body => rfl, rfl⟩

/-- C4: for all valid constructor inputs `Task.__init__` succeeds,
normalizing environment `'UAT'` to `'TEST'` and converting datetime
start/finish inputs to their ISO-8601 string forms; and it raises on a
non-string identifier, a non-None non-datetime start or finish, a status
that is not the string `'FAILURE'` or `'SUCCESS'` (covering non-strings),
an environment that is not the string `'TEST'`, `'UAT'` or `'PROD'`
(covering non-strings), or a details value that is not a dict, list or
None. -/
theorem task_init_validation :
    (∀ task_id start finish status environment resp details c1 c2 c3 : PyVal,
      ValidTaskArgs task_id start finish status environment resp details →
      ∃ t, SwarmTask.init task_id start finish status environment resp details
          c1 c2 c3 = .ok t ∧
        (environment = .vStr "UAT" → t.environment = .vStr "TEST") ∧
        (∀ d, start = .vDt d → t.created = .vStr d) ∧
        (∀ d, finish = .vDt d → t.updated = .vStr d)) ∧
    (∀ task_id start finish status environment resp details c1 c2 c3 : PyVal,
      ((¬ ∃ g, task_id = .vStr g) ∨
       (start ≠ .vNone ∧ ¬ ∃ d, start = .vDt d) ∨
       (finish ≠ .vNone ∧ ¬ ∃ d, finish = .vDt d) ∨
       (status ≠ .vStr "FAILURE" ∧ status ≠ .vStr "SUCCESS") ∨
       (environment ≠ .vStr "TEST" ∧ environment ≠ .vStr "UAT" ∧
         environment ≠ .vStr "PROD") ∨
       (details ≠ .vDict ∧ (¬ ∃ l, details = .vList l) ∧ details ≠ .vNone)) →
      ∃ e, SwarmTask.init task_id start finish status environment resp details
        c1 c2 c3 = .error e) := by
  constructor
  · intro tid st fin stat env resp det c1 c2 c3 hv
    refine ⟨mkValidTask tid st fin stat env resp det,
      init_ok_of_valid _ _ _ _ _ _ _ _ _ _ hv, ?_, ?_, ?_⟩
    · intro h
      simp [mkValidTask, h]
    · intro d h
      subst h
      simp [mkValidTask, PyVal.isoformat]
    · intro d h
      subst h
      simp [mkValidTask, PyVal.isoformat]
  · intro tid st fin stat env resp det c1 c2 c3 hbad
    cases hE : SwarmTask.init tid st fin stat env resp det c1 c2 c3 with
    | error e => exact ⟨e, rfl⟩
    | ok t =>
      exfalso
      obtain ⟨⟨⟨⟨g, hg⟩, hst, hfin, hstat, henv, hdet⟩, -⟩, -⟩ :=
        init_ok_valid _ _ _ _ _ _ _ _ _ _ _ hE
      rcases hbad with hb | hb | hb | hb | hb | hb
      · exact hb ⟨g, hg⟩
      · rcases hst with h1 | h1
        · exact hb.1 h1
        · exact hb.2 h1
      · rcases hfin with h1 | h1
        · exact hb.1 h1
        · exact hb.2 h1
      · rcases hstat with h1 | h1
        · exact hb.1 h1
        · exact hb.2 h1
      · rcases henv with h1 | h1 | h1
        · exact hb.1 h1
        · exact hb.2.1 h1
        · exact hb.2.2 h1
      · rcases hdet with h1 | h1 | h1
        · exact hb.1 h1
        · exact hb.2.1 h1
        · exact hb.2.2 h1

/-- C4, witness: a concrete valid input with a datetime start and
environment `'UAT'`. -/
theorem task_init_validation_witness :
    ∃ t, SwarmTask.init (.vStr "t1") (.vDt "2024-05-01T00:00:00") .vNone
        (.vStr "SUCCESS") (.vStr "UAT") (.vStr "Success") .vNone .vNone .vNone
        .vNone = .ok t ∧
      (PyVal.vStr "UAT" = PyVal.vStr "UAT" → t.environment = .vStr "TEST") ∧
      (∀ d, PyVal.vDt "2024-05-01T00:00:00" = PyVal.vDt d →
        t.created = .vStr d) ∧
      (∀ d, PyVal.vNone = PyVal.vDt d → t.updated = .vStr d) :=
  task_init_validation.1 _ _ _ _ _ _ _ _ _ _
    ⟨⟨⟨"t1", rfl⟩, Or.inr ⟨_, rfl⟩, Or.inl rfl, Or.inr rfl, Or.inr (Or.inl rfl),
      Or.inr (Or.inr rfl)⟩, ⟨"Success", rfl, rfl, by decide⟩⟩

/-- C5: constructing a task with outcome `'success'` raises the
upper-case-check exception while `'Success'` constructs fine; in general,
for every non-empty string outcome and otherwise valid arguments,
construction raises if and only if the first character is not upper
case. -/
theorem task_init_outcome_case :
    (SwarmTask.init (.vStr "t1") .vNone .vNone (.vStr "SUCCESS") (.vStr "PROD")
        (.vStr "success") .vNone .vNone .vNone .vNone =
      .error (.exception "First letter of response must be upper case")) ∧
    (∃ t, SwarmTask.init (.vStr "t1") .vNone .vNone (.vStr "SUCCESS")
        (.vStr "PROD") (.vStr "Success") .vNone .vNone .vNone .vNone =
      .ok t) ∧
    (∀ (task_id start finish status environment details c1 c2 c3 : PyVal)
      (s : String),
      ValidNonOutcomeArgs task_id start finish status environment details →
      s.isEmpty = false →
      ((∃ e, SwarmTask.init task_id start finish status environment (.vStr s)
          details c1 c2 c3 = .error e) ↔ s.front.isUpper = false)) := by
  refine ⟨rfl,
    ⟨mkValidTask (.vStr "t1") .vNone .vNone (.vStr "SUCCESS") (.vStr "PROD")
      (.vStr "Success") .vNone, rfl⟩, ?_⟩
  intro tid st fin stat env det c1 c2 c3 s hno hse
  constructor
  · rintro ⟨e, hE⟩
    by_contra hup
    rw [Bool.not_eq_false] at hup
    have hok := init_ok_of_valid tid st fin stat env (.vStr s) det c1 c2 c3
      ⟨hno, ⟨s, rfl, hse, hup⟩⟩
    rw [hok] at hE
    exact Except.noConfusion hE
  · intro hup
    refine ⟨.exception "First letter of response must be upper case", ?_⟩
    rw [init_reduce_of_valid _ _ _ _ _ _ _ _ _ _ hno]
    simp [hse, hup]

/-- C5, witness: the equivalence instantiated at the outcome string
`'ok'`. -/
theorem task_init_outcome_case_witness :
    (∃ e, SwarmTask.init (.vStr "t1") .vNone .vNone (.vStr "FAILURE")
        (.vStr "TEST") (.vStr "ok") .vNone .vNone .vNone .vNone = .error e) ↔
      (String.front "ok").isUpper = false :=
  task_init_outcome_case.2.2 _ _ _ _ _ _ _ _ _ "ok"
    ⟨⟨"t1", rfl⟩, Or.inl rfl, Or.inl rfl, Or.inl rfl, Or.inl rfl,
      Or.inr (Or.inr rfl)⟩ rfl

/-- C8: with an empty outcome string and otherwise valid arguments,
`Task.__init__` evaluates the unguarded indexing `self.outcome[0]` on the
empty string: no validation branch guards it, and construction raises
`IndexError` (not the upper-case-check exception). -/
theorem task_init_empty_outcome (task_id start finish status environment
    details c1 c2 c3 : PyVal)
    (h : ValidNonOutcomeArgs task_id start finish status environment details) :
    SwarmTask.init task_id start finish status environment (.vStr "") details
      c1 c2 c3 = .error .indexError := by
  rw [init_reduce_of_valid _ _ _ _ _ _ _ _ _ _ h]
  rfl

/-- C8, witness: concrete otherwise-valid arguments with outcome `''`. -/
theorem task_init_empty_outcome_witness :
    SwarmTask.init (.vStr "t1") .vNone .vNone (.vStr "SUCCESS") (.vStr "PROD")
        (.vStr "") .vNone .vNone .vNone .vNone = .error .indexError :=
  task_init_empty_outcome _ _ _ _ _ _ _ _ _
    ⟨⟨"t1", rfl⟩, Or.inl rfl, Or.inl rfl, Or.inr rfl, Or.inr (Or.inr rfl),
      Or.inr (Or.inr rfl)⟩

/-- C10: every successfully constructed task has `stages = []` and
`swarm_version = 'N/A'` regardless of constructor arguments; both fields
appear in `task.__dict__`, the dictionary both `upload_swarm_task` and
`update_swarm_task` serialize as their JSON payload (`Task.attrDict` here,
bound to `params` in both functions), and in the payload of the request
`upload_swarm_task` actually sends. -/
theorem task_constant_fields (task_id start finish status environment resp
    details c1 c2 c3 : PyVal) (t : SwarmTask)
    (h : SwarmTask.init task_id start finish status environment resp details
      c1 c2 c3 = .ok t) :
    t.stages = .vList [] ∧ t.swarm_version = .vStr "N/A" ∧
    ("stages", PyVal.vList []) ∈ t.attrDict ∧
    ("swarm_version", PyVal.vStr "N/A") ∈ t.attrDict ∧
    (∀ (base_url : String) (resp2 : HttpResponse),
      ∃ req res, SwarmAPI.upload_swarm_task base_url t resp2 = .ok (req, res) ∧
        req.payload = t.attrDict ∧
        ("stages", PyVal.vList []) ∈ req.payload ∧
        ("swarm_version", PyVal.vStr "N/A") ∈ req.payload) := by
  obtain ⟨-, rfl⟩ := init_ok_valid _ _ _ _ _ _ _ _ _ _ _ h
  refine ⟨rfl, rfl, by simp [SwarmTask.attrDict, mkValidTask],
    by simp [SwarmTask.attrDict, mkValidTask], ?_⟩
  intro base_url resp2
  by_cases h201 : resp2.status_code = 201
  · refine ⟨⟨"POST", base_url ++ "tasks/create",
        (mkValidTask task_id start finish status environment resp
          details).attrDict⟩, .json resp2.body, ?_, rfl, ?_, ?_⟩
    · unfold SwarmAPI.upload_swarm_task
      rw [if_pos h201]
    · simp [SwarmTask.attrDict, mkValidTask]
    · simp [SwarmTask.attrDict, mkValidTask]
  · refine ⟨⟨"POST", base_url ++ "tasks/create",
        (mkValidTask task_id start finish status environment resp
          details).attrDict⟩, .falseVal, ?_, rfl, ?_, ?_⟩
    · unfold SwarmAPI.upload_swarm_task
      rw [if_neg h201]
    · simp [SwarmTask.attrDict, mkValidTask]
    · simp [SwarmTask.attrDict, mkValidTask]

/-- C10, witness: the concretely constructed task of the C4 witness
input, with a 201 upload response. -/
theorem task_constant_fields_witness :
    (mkValidTask (.vStr "t1") .vNone .vNone (.vStr "SUCCESS") (.vStr "PROD")
        (.vStr "Success") .vNone).stages = .vList [] ∧
    (mkValidTask (.vStr "t1") .vNone .vNone (.vStr "SUCCESS") (.vStr "PROD")
        (.vStr "Success") .vNone).swarm_version = .vStr "N/A" ∧
    ("stages", PyVal.vList []) ∈ (mkValidTask (.vStr "t1") .vNone .vNone
        (.vStr "SUCCESS") (.vStr "PROD") (.vStr "Success") .vNone).attrDict ∧
    ("swarm_version", PyVal.vStr "N/A") ∈ (mkValidTask (.vStr "t1") .vNone
        .vNone (.vStr "SUCCESS") (.vStr "PROD") (.vStr "Success")
        .vNone).attrDict ∧
    (∃ req res, SwarmAPI.upload_swarm_task "https://swarm.unmand.app/"
        (mkValidTask (.vStr "t1") .vNone .vNone (.vStr "SUCCESS")
          (.vStr "PROD") (.vStr "Success") .vNone)
        { status_code := 201, body := [] } = .ok (req, res) ∧
      req.payload = (mkValidTask (.vStr "t1") .vNone .vNone (.vStr "SUCCESS")
        (.vStr "PROD") (.vStr "Success") .vNone).attrDict ∧
      ("stages", PyVal.vList []) ∈ req.payload ∧
      ("swarm_version", PyVal.vStr "N/A") ∈ req.payload) :=
  have h := task_constant_fields (.vStr "t1") .vNone .vNone (.vStr "SUCCESS")
    (.vStr "PROD") (.vStr "Success") .vNone .vNone .vNone .vNone _ rfl
  ⟨h.1, h.2.1, h.2.2.1, h.2.2.2.1,
    h.2.2.2.2 "https://swarm.unmand.app/" { status_code := 201, body := [] }⟩
